import Mathlib

/-!
Verification of the Telegram joke-bot repository: a shallow embedding of its
rate limiter (`src/utils/RateLimiter.ts`), rate-limiter registry
(`src/utils/RateLimiterManager.ts`), user service (`src/services/UserService.ts`),
Agenda-based job scheduler (the `AgendaScheduler` source file) and the
`/frequency` command handler (`src/services/TelegramBotService.ts`),
together with proofs of the specification's claims about them.

Conventions: JavaScript `Map` objects become functions into `Option`;
timestamps (`Date.now()` milliseconds) become `Int` parameters threaded
explicitly; methods that mutate `this` become functions returning the new
state; `throw` becomes `Except`.
-/

set_option maxHeartbeats 1000000

/-- `ceilDiv a b` is `⌈a / b⌉` for a positive divisor `b`, the embedding of
JavaScript `Math.ceil(a / b)` on integer inputs. -/
def ceilDiv (a b : Int) : Int := -((-a) / b)

/-- Embedding of `RateLimiterConfig` (`RateLimiter.ts`): the fields the
`checkLimit` / `getStatus` logic reads. -/
structure RateLimiterConfig where
  maxRequests : Nat
  windowMs : Int
deriving Repr, DecidableEq

/-- Embedding of the per-key record `RateLimiterStore` (`RateLimiter.ts`).
`blocked` and `blockedUntil` are optional fields in the source; they are
written by `checkLimit` but never read. -/
structure RateLimiterStore where
  requests : Nat
  resetTime : Int
  blocked : Option Bool
  blockedUntil : Option Int
deriving Repr, DecidableEq

/-- Embedding of `RateLimitResult` (`RateLimiter.ts`). -/
structure RateLimitResult where
  isAllowed : Bool
  remaining : Int
  resetTime : Int
  retryAfter : Option Int
deriving Repr, DecidableEq

/-- The limiter's `store : Map<string, RateLimiterStore>` as a function. -/
def RLStoreMap : Type := String → Option RateLimiterStore

/-- Embedding of `RateLimiter.checkLimit` (`RateLimiter.ts` lines 68-111).
The source resolves `key` through `keyGenerator(context)`; here `key` is the
resolved key and `now` is `Date.now()`.  Returns the result together with the
store after the call (the source mutates the `Map` entry in place). -/
def checkLimit (cfg : RateLimiterConfig) (store : RLStoreMap) (key : String) (now : Int) :
    RateLimitResult × RLStoreMap :=
  let data0 : RateLimiterStore :=
    match store key with
    | some d => d
    | none => { requests := 0, resetTime := now + cfg.windowMs, blocked := none, blockedUntil := none }
  let data : RateLimiterStore :=
    if now ≥ data0.resetTime then
      { requests := 1, resetTime := now + cfg.windowMs, blocked := some false, blockedUntil := none }
    else
      { data0 with requests := data0.requests + 1 }
  let remaining : Int := max 0 ((cfg.maxRequests : Int) - (data.requests : Int))
  let isAllowed : Bool := decide (data.requests ≤ cfg.maxRequests)
  let result : RateLimitResult :=
    { isAllowed := isAllowed,
      remaining := remaining,
      resetTime := data.resetTime,
      retryAfter := if isAllowed then none else some (ceilDiv (data.resetTime - now) 1000) }
  (result, fun k => if k = key then some data else store k)

/-- Embedding of the record returned by `RateLimiter.getStatus`. -/
structure RateLimitStatus where
  requests : Nat
  remaining : Int
  resetTime : Int
  isActive : Bool
deriving Repr, DecidableEq

/-- Embedding of `RateLimiter.getStatus` (`RateLimiter.ts` lines 132-150).
The method only reads the store, so the returned store is the input store. -/
def getStatus (cfg : RateLimiterConfig) (store : RLStoreMap) (identifier : String) (now : Int) :
    RateLimitStatus × RLStoreMap :=
  match store identifier with
  | none =>
      ({ requests := 0, remaining := (cfg.maxRequests : Int),
         resetTime := now + cfg.windowMs, isActive := false }, store)
  | some data =>
      ({ requests := data.requests,
         remaining := max 0 ((cfg.maxRequests : Int) - (data.requests : Int)),
         resetTime := data.resetTime, isActive := true }, store)

/-- The spec's rate-window entry: `count` and `windowResetAt` (spec section 3). -/
structure SpecWindowEntry where
  count : Nat
  windowResetAt : Int
deriving Repr, DecidableEq

/-- The spec-level store: one `SpecWindowEntry` per key. -/
def SpecStoreMap : Type := String → Option SpecWindowEntry

/-- The spec's fixed-window reference algorithm, transcribed from its own
words (spec section 4.1): look up the entry for `key`; if absent, create with
`count = 0`, `windowResetAt = now + windowMs`; if `now >= windowResetAt`,
reset the window (`count = 0`, new `windowResetAt`); increment `count`;
allowed iff `count <= maxRequests`; `remaining = max(0, maxRequests - count)`;
when disallowed, `retryAfterSeconds = ceil((windowResetAt - now) / 1000)`. -/
def checkAndIncrementSpec (cfg : RateLimiterConfig) (store : SpecStoreMap) (key : String) (now : Int) :
    RateLimitResult × SpecStoreMap :=
  let e0 : SpecWindowEntry :=
    match store key with
    | some e => e
    | none => { count := 0, windowResetAt := now + cfg.windowMs }
  let e1 : SpecWindowEntry :=
    if now ≥ e0.windowResetAt then { count := 0, windowResetAt := now + cfg.windowMs } else e0
  let e2 : SpecWindowEntry := { e1 with count := e1.count + 1 }
  let isAllowed : Bool := decide (e2.count ≤ cfg.maxRequests)
  let result : RateLimitResult :=
    { isAllowed := isAllowed,
      remaining := max 0 ((cfg.maxRequests : Int) - (e2.count : Int)),
      resetTime := e2.windowResetAt,
      retryAfter := if isAllowed then none else some (ceilDiv (e2.windowResetAt - now) 1000) }
  (result, fun k => if k = key then some e2 else store k)

/-- Abstraction of a code-level store entry to the spec's entry. -/
def absEntry (d : RateLimiterStore) : SpecWindowEntry :=
  { count := d.requests, windowResetAt := d.resetTime }

/-- Abstraction of the code-level store map to the spec-level store map. -/
def absStore (store : RLStoreMap) : SpecStoreMap :=
  fun k => (store k).map absEntry

/-- Claim C2: for every key and every current store state, a single
`checkLimit` call computes exactly the spec's fixed-window reference
algorithm — the result is identical and the updated store abstracts to the
store the reference algorithm produces. -/
theorem checkLimit_matches_spec_algorithm :
    ∀ (cfg : RateLimiterConfig) (store : RLStoreMap) (key : String) (now : Int),
      (checkLimit cfg store key now).1 = (checkAndIncrementSpec cfg (absStore store) key now).1 ∧
      absStore (checkLimit cfg store key now).2 = (checkAndIncrementSpec cfg (absStore store) key now).2 := by
  intro cfg store key now
  cases h : store key with
  | none =>
      constructor
      · by_cases hw : cfg.windowMs ≤ 0 <;>
          simp [checkLimit, checkAndIncrementSpec, absStore, absEntry, h, hw]
      · funext k
        by_cases hk : k = key <;> by_cases hw : cfg.windowMs ≤ 0 <;>
          simp [checkLimit, checkAndIncrementSpec, absStore, absEntry, h, hk, hw]
  | some d =>
      constructor
      · by_cases hnow : now ≥ d.resetTime <;>
          simp [checkLimit, checkAndIncrementSpec, absStore, absEntry, h, hnow]
      · funext k
        by_cases hk : k = key <;> by_cases hnow : now ≥ d.resetTime <;>
          simp [checkLimit, checkAndIncrementSpec, absStore, absEntry, h, hk, hnow]

/-- Claim C9: on a limiter with `windowMs >= 1`, a disallowed `checkLimit`
result has `remaining = 0` and a defined `retryAfter` of at least 1 second;
an allowed result has no `retryAfter`. -/
theorem rejected_result_shape :
    ∀ (cfg : RateLimiterConfig) (store : RLStoreMap) (key : String) (now : Int),
      1 ≤ cfg.windowMs →
      (((checkLimit cfg store key now).1.isAllowed = false →
          (checkLimit cfg store key now).1.remaining = 0 ∧
          ∃ s, (checkLimit cfg store key now).1.retryAfter = some s ∧ 1 ≤ s) ∧
        ((checkLimit cfg store key now).1.isAllowed = true →
          (checkLimit cfg store key now).1.retryAfter = none)) := by
  intro cfg store key now hw
  cases h : store key with
  | none =>
      have h1 : ¬ now ≥ now + cfg.windowMs := by omega
      have h2 : ¬ cfg.windowMs ≤ 0 := by omega
      by_cases hreq : 1 ≤ cfg.maxRequests
      · constructor
        · intro hA
          exfalso
          simp [checkLimit, h, h1, h2, hreq] at hA
        · intro _
          simp [checkLimit, h, h1, h2, hreq]
      · constructor
        · intro _
          simp [checkLimit, h, h1, h2, hreq, ceilDiv]
          omega
        · intro hA
          exfalso
          simp [checkLimit, h, h1, h2, hreq] at hA
  | some d =>
      by_cases hnow : now ≥ d.resetTime
      · have h2 : ¬ cfg.windowMs ≤ 0 := by omega
        by_cases hreq : 1 ≤ cfg.maxRequests
        · constructor
          · intro hA
            exfalso
            simp [checkLimit, h, hnow, h2, hreq] at hA
          · intro _
            simp [checkLimit, h, hnow, h2, hreq]
        · constructor
          · intro _
            simp [checkLimit, h, hnow, h2, hreq, ceilDiv]
            omega
          · intro hA
            exfalso
            simp [checkLimit, h, hnow, h2, hreq] at hA
      · by_cases hreq : d.requests + 1 ≤ cfg.maxRequests
        · constructor
          · intro hA
            exfalso
            simp [checkLimit, h, hnow, hreq] at hA
          · intro _
            simp [checkLimit, h, hnow, hreq]
        · constructor
          · intro _
            have hlt : now < d.resetTime := by omega
            simp [checkLimit, h, hnow, hreq, ceilDiv]
            omega
          · intro hA
            exfalso
            simp [checkLimit, h, hnow, hreq] at hA

/-- Witness for C9 at a concrete input: a limiter with `maxRequests = 0`
rejects the first call for a fresh key. -/
theorem rejected_result_shape_witness :
    (checkLimit { maxRequests := 0, windowMs := 5 } (fun _ => none) "k" 0).1.remaining = 0 ∧
    ∃ s, (checkLimit { maxRequests := 0, windowMs := 5 } (fun _ => none) "k" 0).1.retryAfter = some s ∧
      1 ≤ s :=
  (rejected_result_shape { maxRequests := 0, windowMs := 5 } (fun _ => none) "k" 0
    (by decide)).1 (by decide)

/-- Claim C10: `getStatus` on an identifier with no stored entry reports
`requests = 0`, `remaining = maxRequests`, `isActive = false`, and leaves the
store unchanged (it creates no entry). -/
theorem getStatus_missing_entry :
    ∀ (cfg : RateLimiterConfig) (store : RLStoreMap) (identifier : String) (now : Int),
      store identifier = none →
      getStatus cfg store identifier now =
        ({ requests := 0, remaining := (cfg.maxRequests : Int),
           resetTime := now + cfg.windowMs, isActive := false }, store) := by
  intro cfg store identifier now h
  simp [getStatus, h]

/-- Witness for C10 at a concrete input. -/
theorem getStatus_missing_entry_witness :
    getStatus { maxRequests := 3, windowMs := 100 } (fun _ => none) "x" 7 =
      ({ requests := 0, remaining := 3, resetTime := 107, isActive := false },
        fun _ => none) :=
  getStatus_missing_entry { maxRequests := 3, windowMs := 100 } (fun _ => none) "x" 7 rfl

/-- `checkLimit` reads the store only at its own key, so stores agreeing at
`key` produce the same result. -/
theorem checkLimit_result_congr
    (cfg : RateLimiterConfig) (s1 s2 : RLStoreMap) (key : String) (now : Int)
    (h : s1 key = s2 key) :
    (checkLimit cfg s1 key now).1 = (checkLimit cfg s2 key now).1 := by
  simp [checkLimit, h]

/-- Claim C7: a `checkLimit` call for one identifier leaves every other
identifier's stored entry unchanged, and in consequence a later call for the
other identifier returns exactly the result it would have returned without
the first call. -/
theorem checkLimit_independent_identifiers :
    ∀ (cfg : RateLimiterConfig) (store : RLStoreMap) (key other : String) (now now2 : Int),
      other ≠ key →
      ((checkLimit cfg store key now).2 other = store other ∧
        (checkLimit cfg ((checkLimit cfg store key now).2) other now2).1 =
          (checkLimit cfg store other now2).1) := by
  intro cfg store key other now now2 hne
  have hfr : (checkLimit cfg store key now).2 other = store other := by
    simp [checkLimit, hne]
  exact ⟨hfr, checkLimit_result_congr cfg _ store other now2 hfr⟩

/-- Witness for C7 at a concrete input. -/
theorem checkLimit_independent_identifiers_witness :
    (checkLimit { maxRequests := 2, windowMs := 1000 } (fun _ => none) "a" 0).2 "b" =
      (fun _ => (none : Option RateLimiterStore)) "b" ∧
    (checkLimit { maxRequests := 2, windowMs := 1000 }
        ((checkLimit { maxRequests := 2, windowMs := 1000 } (fun _ => none) "a" 0).2) "b" 50).1 =
      (checkLimit { maxRequests := 2, windowMs := 1000 } (fun _ => none) "b" 50).1 :=
  checkLimit_independent_identifiers { maxRequests := 2, windowMs := 1000 }
    (fun _ => none) "a" "b" 0 50 (by decide)

/-- A registered limiter: its policy plus its window store
(the `RateLimiter` instances held by `RateLimiterManager.limiters`). -/
structure RateLimiterState where
  config : RateLimiterConfig
  store : RLStoreMap

/-- The error thrown by `RateLimiterManager.get` for an unregistered name
(the spec's `NotFoundError`). -/
inductive ManagerError
  | notFound (name : String)
deriving Repr, DecidableEq

/-- The manager's `limiters : Map<string, RateLimiter>` as a function. -/
def LimiterMap : Type := String → Option RateLimiterState

/-- Embedding of `RateLimiterManager.get` (`RateLimiterManager.ts` lines
69-75): throws when the name is not registered. -/
def managerGet (limiters : LimiterMap) (name : String) : Except ManagerError RateLimiterState :=
  match limiters name with
  | some l => Except.ok l
  | none => Except.error (ManagerError.notFound name)

/-- Embedding of `RateLimiterManager.has` (`RateLimiterManager.ts` lines
80-82). -/
def managerHas (limiters : LimiterMap) (name : String) : Bool :=
  (limiters name).isSome

/-- Claim C8: for every unregistered name, `get` fails with `NotFoundError`
and `has` returns `false`; for every registered name, `get` returns the
registered limiter and `has` returns `true`. -/
theorem managerGet_has_lookup :
    ∀ (limiters : LimiterMap) (name : String),
      (limiters name = none →
        managerGet limiters name = Except.error (ManagerError.notFound name) ∧
        managerHas limiters name = false) ∧
      (∀ l, limiters name = some l →
        managerGet limiters name = Except.ok l ∧ managerHas limiters name = true) := by
  intro limiters name
  constructor
  · intro h
    simp [managerGet, managerHas, h]
  · intro l h
    simp [managerGet, managerHas, h]

/-- Witness for C8 at a concrete registry holding one limiter. -/
theorem managerGet_has_lookup_witness :
    (managerGet
        (fun n => if n = "telegram:command"
          then some { config := { maxRequests := 5, windowMs := 5000 }, store := fun _ => none }
          else none) "zzz" =
      Except.error (ManagerError.notFound "zzz") ∧
     managerHas
        (fun n => if n = "telegram:command"
          then some { config := { maxRequests := 5, windowMs := 5000 }, store := fun _ => none }
          else none) "zzz" = false) ∧
    (managerGet
        (fun n => if n = "telegram:command"
          then some { config := { maxRequests := 5, windowMs := 5000 }, store := fun _ => none }
          else none) "telegram:command" =
      Except.ok { config := { maxRequests := 5, windowMs := 5000 }, store := fun _ => none } ∧
     managerHas
        (fun n => if n = "telegram:command"
          then some { config := { maxRequests := 5, windowMs := 5000 }, store := fun _ => none }
          else none) "telegram:command" = true) :=
  ⟨(managerGet_has_lookup
      (fun n => if n = "telegram:command"
        then some { config := { maxRequests := 5, windowMs := 5000 }, store := fun _ => none }
        else none) "zzz").1 (by simp),
   (managerGet_has_lookup
      (fun n => if n = "telegram:command"
        then some { config := { maxRequests := 5, windowMs := 5000 }, store := fun _ => none }
        else none) "telegram:command").2
     { config := { maxRequests := 5, windowMs := 5000 }, store := fun _ => none } (by simp)⟩

/-- The store after `n` successive `checkLimit` calls for `key`, the `i`-th
call (0-indexed) happening at time `t i`. -/
def storeAfter (cfg : RateLimiterConfig) (store0 : RLStoreMap) (key : String) (t : Nat → Int) :
    Nat → RLStoreMap
  | 0 => store0
  | n + 1 => (checkLimit cfg (storeAfter cfg store0 key t n) key (t n)).2

/-- The result of the `n`-th `checkLimit` call (0-indexed) in the sequence. -/
def resultAt (cfg : RateLimiterConfig) (store0 : RLStoreMap) (key : String) (t : Nat → Int)
    (n : Nat) : RateLimitResult :=
  (checkLimit cfg (storeAfter cfg store0 key t n) key (t n)).1

/-- Starting from a store with no entry for `key`, after `m ≥ 1` calls all
made strictly inside the first call's window, the entry for `key` holds
`requests = m` and `resetTime = t 0 + windowMs`. -/
theorem storeAfter_entry
    (cfg : RateLimiterConfig) (store0 : RLStoreMap) (key : String) (t : Nat → Int)
    (h0 : store0 key = none) (hw : 1 ≤ cfg.windowMs) :
    ∀ m, 1 ≤ m → (∀ i, i < m → t i < t 0 + cfg.windowMs) →
      storeAfter cfg store0 key t m key =
        some { requests := m, resetTime := t 0 + cfg.windowMs,
               blocked := none, blockedUntil := none } := by
  intro m
  induction m with
  | zero => intro h; omega
  | succ m ih =>
      intro _ ht
      cases m with
      | zero =>
          have hnot : ¬ t 0 ≥ t 0 + cfg.windowMs := by omega
          show (checkLimit cfg store0 key (t 0)).2 key = _
          simp [checkLimit, h0, hnot]
      | succ k =>
          have hentry := ih (by omega) (fun i hi => ht i (by omega))
          have hnot : ¬ t (k + 1) ≥ t 0 + cfg.windowMs := by
            have := ht (k + 1) (by omega)
            omega
          show (checkLimit cfg (storeAfter cfg store0 key t (k + 1)) key (t (k + 1))).2 key = _
          simp [checkLimit, hentry, hnot]

/-- Shape of the `n`-th result in such a sequence: the call sees
`requests = n + 1`, so it is allowed iff `n + 1 ≤ maxRequests`, and when
rejected its `retryAfter` is `⌈(t 0 + windowMs - t n) / 1000⌉`. -/
theorem resultAt_shape
    (cfg : RateLimiterConfig) (store0 : RLStoreMap) (key : String) (t : Nat → Int)
    (h0 : store0 key = none) (hw : 1 ≤ cfg.windowMs) :
    ∀ n, (∀ i, i < n + 1 → t i < t 0 + cfg.windowMs) →
      (resultAt cfg store0 key t n).isAllowed = decide (n + 1 ≤ cfg.maxRequests) ∧
      (resultAt cfg store0 key t n).retryAfter =
        (if n + 1 ≤ cfg.maxRequests then none
         else some (ceilDiv (t 0 + cfg.windowMs - t n) 1000)) := by
  intro n ht
  cases n with
  | zero =>
      have hnot : ¬ t 0 ≥ t 0 + cfg.windowMs := by omega
      by_cases hreq : 1 ≤ cfg.maxRequests <;>
        simp [resultAt, storeAfter, checkLimit, h0, hnot, hreq]
  | succ k =>
      have hentry := storeAfter_entry cfg store0 key t h0 hw (k + 1) (by omega)
        (fun i hi => ht i (by omega))
      have hnot : ¬ t (k + 1) ≥ t 0 + cfg.windowMs := by
        have := ht (k + 1) (by omega)
        omega
      by_cases hreq : k + 1 + 1 ≤ cfg.maxRequests <;>
        simp [resultAt, checkLimit, hentry, hnot, hreq]

/-- Claim C3.  First part: a limiter with `maxRequests = N ≥ 1` and
`windowMs = W ≥ 1` allows the first `N` calls for a fresh identifier made
within `W` milliseconds of the first and rejects the `(N+1)`-th with
`retryAfter ≥ 1`.  Second part, the spec's concrete scenario: with
`maxRequests = 5`, `windowMs = 5000` and six calls within one second, the
results are five `allowed` then one `rejected`, whose `retryAfter` lies
between 4 and 5. -/
theorem first_n_allowed_then_rejected :
    (∀ (cfg : RateLimiterConfig) (store0 : RLStoreMap) (key : String) (t : Nat → Int),
      store0 key = none → 1 ≤ cfg.maxRequests → 1 ≤ cfg.windowMs →
      (∀ i, i ≤ cfg.maxRequests → t i < t 0 + cfg.windowMs) →
      ((∀ i, i < cfg.maxRequests → (resultAt cfg store0 key t i).isAllowed = true) ∧
        (resultAt cfg store0 key t cfg.maxRequests).isAllowed = false ∧
        ∃ s, (resultAt cfg store0 key t cfg.maxRequests).retryAfter = some s ∧ 1 ≤ s)) ∧
    (∀ (store0 : RLStoreMap) (key : String) (t : Nat → Int),
      store0 key = none →
      (∀ i, i ≤ 5 → t 0 ≤ t i ∧ t i ≤ t 0 + 1000) →
      ((∀ i, i < 5 →
          (resultAt { maxRequests := 5, windowMs := 5000 } store0 key t i).isAllowed = true) ∧
        (resultAt { maxRequests := 5, windowMs := 5000 } store0 key t 5).isAllowed = false ∧
        ∃ s, (resultAt { maxRequests := 5, windowMs := 5000 } store0 key t 5).retryAfter = some s ∧
          4 ≤ s ∧ s ≤ 5)) := by
  constructor
  · intro cfg store0 key t h0 hN hw ht
    refine ⟨?_, ?_, ?_⟩
    · intro i hi
      have hs := resultAt_shape cfg store0 key t h0 hw i (fun j hj => ht j (by omega))
      rw [hs.1]
      simp
      omega
    · have hs := resultAt_shape cfg store0 key t h0 hw cfg.maxRequests (fun j hj => ht j (by omega))
      rw [hs.1]
      simp
    · have hs := resultAt_shape cfg store0 key t h0 hw cfg.maxRequests (fun j hj => ht j (by omega))
      rw [hs.2]
      have hcond : ¬ (cfg.maxRequests + 1 ≤ cfg.maxRequests) := by omega
      simp [hcond]
      have htN := ht cfg.maxRequests (by omega)
      unfold ceilDiv
      omega
  · intro store0 key t h0 ht
    have hw : (1 : Int) ≤ ({ maxRequests := 5, windowMs := 5000 } : RateLimiterConfig).windowMs := by
      decide
    have hb : ({ maxRequests := 5, windowMs := 5000 } : RateLimiterConfig).windowMs = 5000 := rfl
    have htW : ∀ j, j < 6 →
        t j < t 0 + ({ maxRequests := 5, windowMs := 5000 } : RateLimiterConfig).windowMs := by
      intro j hj
      have := (ht j (by omega)).2
      omega
    refine ⟨?_, ?_, ?_⟩
    · intro i hi
      have hs := resultAt_shape { maxRequests := 5, windowMs := 5000 } store0 key t h0 hw i
        (fun j hj => htW j (by omega))
      rw [hs.1]
      simp
      omega
    · have hs := resultAt_shape { maxRequests := 5, windowMs := 5000 } store0 key t h0 hw 5
        (fun j hj => htW j (by omega))
      rw [hs.1]
      simp
    · have hs := resultAt_shape { maxRequests := 5, windowMs := 5000 } store0 key t h0 hw 5
        (fun j hj => htW j (by omega))
      rw [hs.2]
      have h5a := (ht 5 (by omega)).1
      have h5b := (ht 5 (by omega)).2
      simp
      unfold ceilDiv
      omega

/-- Witness for C3, the spec's concrete scenario at concrete call times
0, 200, 400, 600, 800, 1000 milliseconds for identifier `u1`. -/
theorem first_n_allowed_then_rejected_witness :
    (∀ i, i < 5 →
        (resultAt { maxRequests := 5, windowMs := 5000 } (fun _ => none) "u1"
          (fun i => 200 * (i : Int)) i).isAllowed = true) ∧
      (resultAt { maxRequests := 5, windowMs := 5000 } (fun _ => none) "u1"
        (fun i => 200 * (i : Int)) 5).isAllowed = false ∧
      ∃ s, (resultAt { maxRequests := 5, windowMs := 5000 } (fun _ => none) "u1"
          (fun i => 200 * (i : Int)) 5).retryAfter = some s ∧ 4 ≤ s ∧ s ≤ 5 :=
  first_n_allowed_then_rejected.2 (fun _ => none) "u1" (fun i => 200 * (i : Int)) rfl
    (by intro i hi; interval_cases i <;> constructor <;> decide)

/-- Embedding of an Agenda `deliver-joke` job document as created by
`AgendaScheduler.scheduleUserJokes`: the job name, its `data.chatId`, the
`repeatEvery` cadence in minutes, and the next run time Agenda maintains. -/
structure AgendaJob where
  name : String
  chatId : Int
  repeatMinutes : Int
  nextRunAt : Int
deriving Repr, DecidableEq

/-- Embedding of `agenda.cancel({ name: 'deliver-joke', 'data.chatId': chatId })`
(`AgendaScheduler`): removes every matching job document from the store. -/
def agendaCancel (jobs : List AgendaJob) (chatId : Int) : List AgendaJob :=
  jobs.filter fun j => !(decide (j.name = "deliver-joke" ∧ j.chatId = chatId))

/-- Embedding of `AgendaScheduler.scheduleUserJokes` (lines 126-164): first
cancel ALL existing `deliver-joke` jobs for this user, then create and save
one new recurring job.  The local `scheduledJobs` bookkeeping map does not
feed back into the store and is not modelled. -/
def scheduleUserJokes (jobs : List AgendaJob) (chatId freq now : Int) : List AgendaJob :=
  agendaCancel jobs chatId ++
    [{ name := "deliver-joke", chatId := chatId, repeatMinutes := freq, nextRunAt := now }]

/-- Embedding of `AgendaScheduler.cancelUserSchedule` (lines 171-191). -/
def cancelUserSchedule (jobs : List AgendaJob) (chatId : Int) : List AgendaJob :=
  agendaCancel jobs chatId

/-- Number of scheduled `deliver-joke` job records for one subscriber key. -/
def activeJobCount (jobs : List AgendaJob) (chatId : Int) : Nat :=
  jobs.countP fun j => decide (j.name = "deliver-joke" ∧ j.chatId = chatId)

/-- The scheduler-facade operations of the claim: schedule (also covering
reschedule, which is `updateUserSchedule` calling `scheduleUserJokes`) and
cancel. -/
inductive SchedulerOp
  | schedule (chatId freq now : Int)
  | cancel (chatId : Int)
deriving Repr, DecidableEq

/-- Apply one facade operation to the job store. -/
def applyOp (jobs : List AgendaJob) : SchedulerOp → List AgendaJob
  | SchedulerOp.schedule c f n => scheduleUserJokes jobs c f n
  | SchedulerOp.cancel c => cancelUserSchedule jobs c

/-- Apply a sequence of facade operations, oldest first. -/
def applyOps (jobs : List AgendaJob) : List SchedulerOp → List AgendaJob
  | [] => jobs
  | op :: rest => applyOps (applyOp jobs op) rest

/-- Cancelling removes every record for the key. -/
theorem activeJobCount_agendaCancel_self (jobs : List AgendaJob) (c : Int) :
    activeJobCount (agendaCancel jobs c) c = 0 := by
  unfold activeJobCount agendaCancel
  rw [List.countP_eq_zero]
  intro a ha
  rw [List.mem_filter] at ha
  have h2 := ha.2
  simp at h2 ⊢
  tauto

/-- Cancelling one key leaves every other key's record count unchanged. -/
theorem activeJobCount_agendaCancel_other (jobs : List AgendaJob) (c k : Int) (hk : k ≠ c) :
    activeJobCount (agendaCancel jobs c) k = activeJobCount jobs k := by
  unfold activeJobCount agendaCancel
  rw [List.countP_filter]
  apply List.countP_congr
  intro a _
  by_cases hp : a.name = "deliver-joke" ∧ a.chatId = k
  · simp [hp, hk]
  · simp [hp]

/-- Scheduling leaves exactly one record for the scheduled key. -/
theorem activeJobCount_schedule_self (jobs : List AgendaJob) (c f n : Int) :
    activeJobCount (scheduleUserJokes jobs c f n) c = 1 := by
  unfold scheduleUserJokes
  unfold activeJobCount at *
  rw [List.countP_append]
  have h0 := activeJobCount_agendaCancel_self jobs c
  unfold activeJobCount at h0
  rw [h0]
  simp

/-- Scheduling one key leaves every other key's record count unchanged. -/
theorem activeJobCount_schedule_other (jobs : List AgendaJob) (c f n k : Int) (hk : k ≠ c) :
    activeJobCount (scheduleUserJokes jobs c f n) k = activeJobCount jobs k := by
  unfold scheduleUserJokes
  unfold activeJobCount at *
  rw [List.countP_append]
  have h0 := activeJobCount_agendaCancel_other jobs c k hk
  unfold activeJobCount at h0
  rw [h0]
  have hk2 : ¬c = k := fun hh => hk hh.symm
  simp [hk2]

/-- The at-most-one-record invariant is preserved by every operation
sequence. -/
theorem applyOps_at_most_one (ops : List SchedulerOp) :
    ∀ jobs : List AgendaJob, (∀ k, activeJobCount jobs k ≤ 1) →
      ∀ k, activeJobCount (applyOps jobs ops) k ≤ 1 := by
  induction ops with
  | nil => intro jobs h k; exact h k
  | cons op rest ih =>
      intro jobs h k
      apply ih
      intro k2
      cases op with
      | schedule c f n =>
          by_cases hk : k2 = c
          · subst hk
            rw [show applyOp jobs (SchedulerOp.schedule k2 f n) =
                scheduleUserJokes jobs k2 f n from rfl]
            rw [activeJobCount_schedule_self]
          · rw [show applyOp jobs (SchedulerOp.schedule c f n) =
                scheduleUserJokes jobs c f n from rfl]
            rw [activeJobCount_schedule_other jobs c f n k2 hk]
            exact h k2
      | cancel c =>
          by_cases hk : k2 = c
          · subst hk
            rw [show applyOp jobs (SchedulerOp.cancel k2) =
                cancelUserSchedule jobs k2 from rfl]
            rw [show cancelUserSchedule jobs k2 = agendaCancel jobs k2 from rfl]
            rw [activeJobCount_agendaCancel_self]
            omega
          · rw [show applyOp jobs (SchedulerOp.cancel c) =
                cancelUserSchedule jobs c from rfl]
            rw [show cancelUserSchedule jobs c = agendaCancel jobs c from rfl]
            rw [activeJobCount_agendaCancel_other jobs c k2 hk]
            exact h k2

/-- Claim C1: after any sequence of schedule/reschedule/cancel operations
starting from the empty job store, every subscriber key has at most one
scheduled `deliver-joke` record; and two back-to-back `scheduleUserJokes`
calls for the same key — from ANY store state — leave exactly one record for
that key. -/
theorem agenda_at_most_one_active_job :
    (∀ (ops : List SchedulerOp) (k : Int), activeJobCount (applyOps [] ops) k ≤ 1) ∧
    (∀ (jobs : List AgendaJob) (k f1 n1 f2 n2 : Int),
      activeJobCount (scheduleUserJokes (scheduleUserJokes jobs k f1 n1) k f2 n2) k = 1) := by
  constructor
  · intro ops k
    exact applyOps_at_most_one ops [] (by intro k2; simp [activeJobCount]) k
  · intro jobs k f1 n1 f2 n2
    exact activeJobCount_schedule_self (scheduleUserJokes jobs k f1 n1) k f2 n2

/-- Embedding of the Mongoose `User` document fields the services read
(`src/models/User.ts`). -/
structure UserDoc where
  chatId : Int
  isEnabled : Bool
  frequency : Int
  lastSentAt : Option Int
deriving Repr, DecidableEq

/-- The `users` collection as a function from chat id to document. -/
def UserDb : Type := Int → Option UserDoc

/-- The due-job scan: the records a poll cycle picks up at time `now`. -/
def dueJobs (jobs : List AgendaJob) (now : Int) : List AgendaJob :=
  jobs.filter fun j => decide (j.nextRunAt ≤ now)

/-- Embedding of `AgendaScheduler.deliverJoke` (lines 205-233): look the user
up; if missing or disabled, cancel the user's schedule and return; otherwise
send a joke (an external effect) and update `lastSentAt`.  Returns the user
database and the job store after the call. -/
def deliverJoke (users : UserDb) (jobs : List AgendaJob) (chatId now : Int) :
    UserDb × List AgendaJob :=
  match users chatId with
  | none => (users, cancelUserSchedule jobs chatId)
  | some u =>
      if u.isEnabled then
        (fun c => if c = chatId then some { u with lastSentAt := some now } else users c, jobs)
      else
        (users, cancelUserSchedule jobs chatId)

/-- Claim C5: when the handler finds the subscriber missing or disabled, the
job store ends up exactly as after an explicit cancel, and no `deliver-joke`
record for that subscriber appears in the due-job scan of any later poll
cycle. -/
theorem deliverJoke_cancels_missing_or_disabled :
    ∀ (users : UserDb) (jobs : List AgendaJob) (chatId now : Int),
      (users chatId = none ∨ ∃ u, users chatId = some u ∧ u.isEnabled = false) →
      ((deliverJoke users jobs chatId now).2 = cancelUserSchedule jobs chatId ∧
        ∀ t j, j ∈ dueJobs (deliverJoke users jobs chatId now).2 t →
          ¬(j.name = "deliver-joke" ∧ j.chatId = chatId)) := by
  intro users jobs chatId now h
  have hcancel : (deliverJoke users jobs chatId now).2 = cancelUserSchedule jobs chatId := by
    rcases h with h | ⟨u, hu, hdis⟩
    · simp [deliverJoke, h]
    · simp [deliverJoke, hu, hdis]
  refine ⟨hcancel, ?_⟩
  intro t j hj
  rw [hcancel] at hj
  unfold dueJobs cancelUserSchedule agendaCancel at hj
  rw [List.mem_filter] at hj
  rw [List.mem_filter] at hj
  have h2 := hj.1.2
  simp at h2
  tauto

/-- Witness for C5 at a concrete input: a disabled subscriber with one
scheduled record. -/
theorem deliverJoke_cancels_missing_or_disabled_witness :
    (deliverJoke
        (fun c => if c = 7 then
          some { chatId := 7, isEnabled := false, frequency := 5, lastSentAt := none }
          else none)
        [{ name := "deliver-joke", chatId := 7, repeatMinutes := 5, nextRunAt := 0 }] 7 100).2 =
      cancelUserSchedule
        [{ name := "deliver-joke", chatId := 7, repeatMinutes := 5, nextRunAt := 0 }] 7 ∧
    ∀ t j, j ∈ dueJobs
        (deliverJoke
          (fun c => if c = 7 then
            some { chatId := 7, isEnabled := false, frequency := 5, lastSentAt := none }
            else none)
          [{ name := "deliver-joke", chatId := 7, repeatMinutes := 5, nextRunAt := 0 }] 7 100).2 t →
      ¬(j.name = "deliver-joke" ∧ j.chatId = 7) :=
  deliverJoke_cancels_missing_or_disabled
    (fun c => if c = 7 then
      some { chatId := 7, isEnabled := false, frequency := 5, lastSentAt := none }
      else none)
    [{ name := "deliver-joke", chatId := 7, repeatMinutes := 5, nextRunAt := 0 }] 7 100
    (Or.inr ⟨{ chatId := 7, isEnabled := false, frequency := 5, lastSentAt := none }, rfl, rfl⟩)

/-- The outcomes of `UserService.setFrequency` (`UserService.ts` lines 38-54):
the interval-validation failure — the spec's `InvalidIntervalError` — or a
missing user. -/
inductive UserServiceError
  | invalidFrequency
  | userNotFound (chatId : Int)
deriving Repr, DecidableEq

/-- Embedding of `UserService.setFrequency` (`UserService.ts` lines 38-54):
validates `1 <= frequency <= 1440` before touching the database and throws
otherwise; then updates the user's `frequency` through `findOneAndUpdate`,
throwing if the user does not exist.  Returns the call's outcome together
with the database after the call. -/
def setFrequency (db : UserDb) (chatId freq : Int) :
    Except UserServiceError UserDoc × UserDb :=
  if freq < 1 ∨ freq > 1440 then
    (Except.error UserServiceError.invalidFrequency, db)
  else
    match db chatId with
    | none => (Except.error (UserServiceError.userNotFound chatId), db)
    | some u =>
        let u2 : UserDoc := { u with frequency := freq }
        (Except.ok u2, fun c => if c = chatId then some u2 else db c)

/-- A `node-cron` task tracked in `JokeScheduler.scheduledJobs`
(`JokeScheduler.ts`): the chat id and the cron cadence in minutes. -/
structure CronJob where
  chatId : Int
  everyMinutes : Int
deriving Repr, DecidableEq

/-- `JokeScheduler.scheduledJobs : Map<number, ScheduledJob>` as a function. -/
def CronJobMap : Type := Int → Option CronJob

/-- Embedding of `JokeScheduler.cancelUserSchedule` (`JokeScheduler.ts`
lines 88-96): stop the task and delete the map entry. -/
def cronCancelUserSchedule (m : CronJobMap) (chatId : Int) : CronJobMap :=
  fun c => if c = chatId then none else m c

/-- Embedding of `JokeScheduler.scheduleUserJokes` (`JokeScheduler.ts` lines
53-82): cancel any existing task for the chat, then store the new recurring
task. -/
def cronScheduleUserJokes (m : CronJobMap) (chatId freq : Int) : CronJobMap :=
  let m1 := if (m chatId).isSome then cronCancelUserSchedule m chatId else m
  fun c => if c = chatId then some { chatId := chatId, everyMinutes := freq } else m1 c

/-- Embedding of `TelegramBotService.handleFrequency` (`TelegramBotService.ts`
lines 191-238) from the interval guard on (after the rate-limit gate and the
argument parse): out-of-range frequencies only produce an error message;
otherwise `setFrequency` runs and, on success, the user is rescheduled.  A
`setFrequency` throw is caught by the handler's `catch`, which only sends an
error message. -/
def handleFrequency (db : UserDb) (sched : CronJobMap) (chatId freq : Int) :
    UserDb × CronJobMap :=
  if freq < 1 ∨ freq > 1440 then (db, sched)
  else
    match setFrequency db chatId freq with
    | (Except.error _, db2) => (db2, sched)
    | (Except.ok _, db2) => (db2, cronScheduleUserJokes sched chatId freq)

/-- Claim C4: every `intervalMinutes` outside `[1, 1440]` makes the
set-frequency operation fail synchronously with the invalid-interval error,
leaving the user database and the scheduler state untouched; every value
inside `[1, 1440]` passes the validation. -/
theorem setFrequency_interval_validation :
    ∀ (db : UserDb) (sched : CronJobMap) (chatId freq : Int),
      ((freq < 1 ∨ freq > 1440) →
        setFrequency db chatId freq = (Except.error UserServiceError.invalidFrequency, db) ∧
        handleFrequency db sched chatId freq = (db, sched)) ∧
      (1 ≤ freq → freq ≤ 1440 →
        (setFrequency db chatId freq).1 ≠ Except.error UserServiceError.invalidFrequency) := by
  intro db sched chatId freq
  constructor
  · intro h
    constructor
    · simp [setFrequency, h]
    · simp [handleFrequency, h]
  · intro h1 h2
    have hv : ¬(freq < 1 ∨ freq > 1440) := by omega
    cases hdb : db chatId with
    | none => simp [setFrequency, hv, hdb]
    | some u => simp [setFrequency, hv, hdb]

/-- Witness for C4 at concrete inputs: frequency 2000 is rejected with the
database and scheduler unchanged; frequency 5 passes the validation. -/
theorem setFrequency_interval_validation_witness :
    (setFrequency (fun _ => none) 1 2000 =
        (Except.error UserServiceError.invalidFrequency, fun _ => none) ∧
      handleFrequency (fun _ => none) (fun _ => none) 1 2000 =
        ((fun _ => none), fun _ => none)) ∧
    (setFrequency (fun _ => none) 1 5).1 ≠ Except.error UserServiceError.invalidFrequency :=
  ⟨(setFrequency_interval_validation (fun _ => none) (fun _ => none) 1 2000).1
      (Or.inr (by decide)),
    (setFrequency_interval_validation (fun _ => none) (fun _ => none) 1 5).2
      (by decide) (by decide)⟩

/-- Modelled from the spec: the Job Runner's per-record state and failure
policy live inside the Agenda library, which is a dependency whose code is
not in this repository — `AgendaScheduler.defineJobs` only rethrows handler
errors into it.  This is the spec's job record (section 3): `key`,
`intervalMinutes`, `nextRunAt`, `lastRunAt`, `failCount`, `active`. -/
structure SpecJobRecord where
  key : Int
  intervalMinutes : Int
  nextRunAt : Int
  lastRunAt : Option Int
  failCount : Nat
  active : Bool
deriving Repr, DecidableEq

/-- A record is due when it is active and its next run time has passed
(spec glossary). -/
def SpecJobRecord.due (r : SpecJobRecord) (now : Int) : Bool :=
  r.active && decide (r.nextRunAt ≤ now)

/-- What a handler invocation reports back to the Runner. -/
inductive HandlerOutcome
  | success
  | failure
  | subscriberGone
deriving Repr, DecidableEq

/-- Modelled from the spec (section 4.4 failure policy): on handler failure
the record's `failCount` increments and `nextRunAt` advances by
`intervalMinutes` from the originally scheduled time, the record staying
active. -/
def markFailure (r : SpecJobRecord) : SpecJobRecord :=
  { r with failCount := r.failCount + 1, nextRunAt := r.nextRunAt + r.intervalMinutes }

/-- `k` consecutive handler failures applied to a record. -/
def failTimes (k : Nat) (r : SpecJobRecord) : SpecJobRecord :=
  match k with
  | 0 => r
  | k + 1 => markFailure (failTimes k r)

/-- Modelled from the spec (section 4.4): how one poll cycle treats one
record — not due: untouched; due and successful: `lastRunAt` set,
`failCount` cleared, next run advanced; due and failing: the failure policy;
due with the subscriber gone/disabled: the record is removed. -/
def stepRecord (outcome : Int → HandlerOutcome) (now : Int) (r : SpecJobRecord) :
    Option SpecJobRecord :=
  if r.due now then
    match outcome r.key with
    | HandlerOutcome.success =>
        some { r with lastRunAt := some now, failCount := 0,
                      nextRunAt := r.nextRunAt + r.intervalMinutes }
    | HandlerOutcome.failure => some (markFailure r)
    | HandlerOutcome.subscriberGone => none
  else
    some r

/-- Modelled from the spec (section 4.4): a poll cycle processes every record
of the store independently. -/
def runnerPoll (outcome : Int → HandlerOutcome) (now : Int) (jobs : List SpecJobRecord) :
    List SpecJobRecord :=
  jobs.filterMap (stepRecord outcome now)

/-- Claim C6: after `k` consecutive handler failures a job record starting at
`failCount = 0` has `failCount = k`, is still active, and is next due at
`originalNextRunAt + k * intervalMinutes` (so 3 failures put it at
`originalNextRunAt + 3 * intervalMinutes`); a due record whose handler fails
is processed exactly by the failure policy; and the poll step handles records
independently, so every other record still gets processed in the same cycle. -/
theorem runner_failure_policy :
    (∀ (r : SpecJobRecord) (k : Nat), r.failCount = 0 →
      (failTimes k r).failCount = k ∧
      (failTimes k r).active = r.active ∧
      (failTimes k r).nextRunAt = r.nextRunAt + (k : Int) * r.intervalMinutes ∧
      ((failTimes 3 r).failCount = 3 ∧
        (failTimes 3 r).nextRunAt = r.nextRunAt + 3 * r.intervalMinutes)) ∧
    (∀ (outcome : Int → HandlerOutcome) (now : Int) (r : SpecJobRecord),
      r.due now = true → outcome r.key = HandlerOutcome.failure →
      stepRecord outcome now r = some (markFailure r)) ∧
    (∀ (outcome : Int → HandlerOutcome) (now : Int) (jobs : List SpecJobRecord)
        (r2 r3 : SpecJobRecord),
      r2 ∈ jobs → stepRecord outcome now r2 = some r3 →
      r3 ∈ runnerPoll outcome now jobs) := by
  refine ⟨?_, ?_, ?_⟩
  · have hcount : ∀ (k : Nat) (r : SpecJobRecord),
        (failTimes k r).failCount = r.failCount + k ∧
        (failTimes k r).active = r.active ∧
        (failTimes k r).nextRunAt = r.nextRunAt + (k : Int) * r.intervalMinutes ∧
        (failTimes k r).intervalMinutes = r.intervalMinutes := by
      intro k
      induction k with
      | zero => intro r; simp [failTimes]
      | succ k ih =>
          intro r
          have h := ih r
          refine ⟨?_, ?_, ?_, ?_⟩
          · have e : (failTimes (k + 1) r).failCount = (failTimes k r).failCount + 1 := rfl
            rw [e, h.1]
            omega
          · have e : (failTimes (k + 1) r).active = (failTimes k r).active := rfl
            rw [e, h.2.1]
          · have e : (failTimes (k + 1) r).nextRunAt =
                (failTimes k r).nextRunAt + (failTimes k r).intervalMinutes := rfl
            rw [e, h.2.2.1, h.2.2.2]
            push_cast
            ring
          · have e : (failTimes (k + 1) r).intervalMinutes =
                (failTimes k r).intervalMinutes := rfl
            rw [e, h.2.2.2]
    intro r k h0
    have h := hcount k r
    have h3 := hcount 3 r
    rw [h0] at h
    rw [h0] at h3
    refine ⟨by omega, h.2.1, h.2.2.1, by omega, ?_⟩
    rw [h3.2.2.1]
    push_cast
    ring
  · intro outcome now r hdue hout
    simp [stepRecord, hdue, hout]
  · intro outcome now jobs r2 r3 hmem hstep
    unfold runnerPoll
    rw [List.mem_filterMap]
    exact ⟨r2, hmem, hstep⟩

/-- A sample job record used by the witness below: fresh (no failures yet),
active, due at time 50 with a 10-minute cadence. -/
def sampleJobA : SpecJobRecord :=
  { key := 1, intervalMinutes := 10, nextRunAt := 50, lastRunAt := none,
    failCount := 0, active := true }

/-- A second sample record for a different subscriber. -/
def sampleJobB : SpecJobRecord :=
  { key := 2, intervalMinutes := 20, nextRunAt := 60, lastRunAt := none,
    failCount := 0, active := true }

/-- Witness for C6 at concrete inputs: `sampleJobA` failing three consecutive
times ends at `failCount = 3`, still active, due at `50 + 3 * 10 = 80`; a due
record with a failing handler steps by the failure policy; and in a poll
containing the failing `sampleJobA`, the other record `sampleJobB` is still
processed. -/
theorem runner_failure_policy_witness :
    ((failTimes 3 sampleJobA).failCount = 3 ∧
      (failTimes 3 sampleJobA).active = true ∧
      (failTimes 3 sampleJobA).nextRunAt = 80) ∧
    stepRecord (fun _ => HandlerOutcome.failure) 100 sampleJobA = some (markFailure sampleJobA) ∧
    markFailure sampleJobB ∈
      runnerPoll (fun _ => HandlerOutcome.failure) 100 [sampleJobA, sampleJobB] := by
  have h1 := runner_failure_policy.1 sampleJobA 3 rfl
  have h2 := runner_failure_policy.2.1 (fun _ => HandlerOutcome.failure) 100 sampleJobA
    (by decide) rfl
  have h3 := runner_failure_policy.2.2 (fun _ => HandlerOutcome.failure) 100
    [sampleJobA, sampleJobB] sampleJobB (markFailure sampleJobB)
    (by simp) (by decide)
  refine ⟨⟨h1.2.2.2.1, h1.2.1, ?_⟩, h2, h3⟩
  rw [h1.2.2.2.2]
  decide
